import Mathlib

/-!
Shallow embedding of the Protectli firmware updater
(`src/main.py` and `src/flashli/configurations.py`).

The catalog literal in `src/flashli/configurations.py` is missing the
separator between the `vp4630` and `vp4650` entries, so the Python module
fails to parse at import time; that token-level defect is modelled
separately (`CatTok`, `configurationsSourceToks`, `dictItemsOk`).  The
`CONFIGURATIONS` list below embeds the entry data of the literal with the
missing separator supplied, since every other function of the program
manipulates that data.
-/

namespace Flashli

/-- One element of a model's `bios` list in `configurations.py`:
a vendor tag and a firmware image file name. -/
structure Bios where
  vendor : String
  file : String
deriving DecidableEq

/-- One value of the `CONFIGURATIONS` dict in `configurations.py`:
cpu label, bios descriptor list, flash command template, optional
override template and optional upgrade template. -/
structure Config where
  cpu : String
  bios : List Bios
  command : String
  override : Option String
  upgrade : Option String
deriving DecidableEq

/-- `flash_command` from `configurations.py` line 5. -/
def flash_command : String := "vendor/flashrom -p internal -w {0} --ifd -i bios"

/-- `overrider_command` from `configurations.py` line 6. -/
def overrider_command : String :=
  "vendor/flashrom -p internal:boardmismatch=force -w {0} --ifd -i bios"

/-- `vpxxxx_flash_command` from `configurations.py` line 8. -/
def vpxxxx_flash_command : String := "vendor/flashrom -p internal -w {0}"

/-- `vpxxxx_upgrade` from `configurations.py` line 9. -/
def vpxxxx_upgrade : String := "vendor/flashrom -p internal -w {0} --fmap -i RW_SECTION_A"

/-- The `CONFIGURATIONS` dict of `configurations.py`, in declaration
order (Python dicts preserve insertion order).  The missing separator
between `vp4630` and `vp4650` is supplied here; the defect itself is
modelled by `configurationsSourceToks` below. -/
def CONFIGURATIONS : List (String × Config) := [
  ("fw2", ⟨"J1800", [⟨"ami", "FW2_BTL4A012.bin"⟩], flash_command, none, none⟩),
  ("fw2b", ⟨"J3060",
    [⟨"ami", "FW2B_BSW4L011.bin"⟩, ⟨"coreboot", "protectli_fw2b_v4.9.0.2.rom"⟩],
    flash_command, none, none⟩),
  ("fw1", ⟨"J1900", [⟨"ami", "FW1_BTL4A012.bin"⟩], flash_command, none, none⟩),
  ("fw4a", ⟨"E3845", [⟨"ami", "FW4A_E38L4A12.bin"⟩], flash_command, none, none⟩),
  ("fw4b", ⟨"J3160",
    [⟨"ami", "FW4B_BSW4L011.bin"⟩, ⟨"coreboot", "protectli_fw4b_v4.12.0.7.rom"⟩],
    flash_command, none, none⟩),
  ("fw4c", ⟨"J3710", [⟨"ami", "FW4C_220921.bin"⟩], flash_command, none, none⟩),
  ("fw6a", ⟨"3865U",
    [⟨"ami", "FW6_all_YKBR6L12.bin"⟩, ⟨"coreboot", "protectli_all_fw6_vault_kbl_v1.0.14.rom"⟩],
    flash_command, none, none⟩),
  ("fw6ar", ⟨"3867U",
    [⟨"ami", "FW6_all_YKBR6L12.bin"⟩, ⟨"coreboot", "protectli_all_fw6_vault_kbl_v1.0.14.rom"⟩],
    flash_command, none, none⟩),
  ("fw6b", ⟨"7100U",
    [⟨"ami", "FW6_all_YKBR6L12.bin"⟩, ⟨"coreboot", "protectli_all_fw6_vault_kbl_v1.0.14.rom"⟩],
    flash_command, none, none⟩),
  ("fw6br", ⟨"7020U",
    [⟨"ami", "FW6_all_YKBR6L12.bin"⟩, ⟨"coreboot", "protectli_all_fw6_vault_kbl_v1.0.14.rom"⟩],
    flash_command, none, none⟩),
  ("fw6br2", ⟨"8130U",
    [⟨"ami", "FW6_all_YKBR6L12.bin"⟩, ⟨"coreboot", "protectli_all_fw6_vault_kbl_v1.0.14.rom"⟩],
    flash_command, none, none⟩),
  ("fw6c", ⟨"7200U",
    [⟨"ami", "FW6_all_YKBR6L12.bin"⟩, ⟨"coreboot", "protectli_all_fw6_vault_kbl_v1.0.14.rom"⟩],
    flash_command, none, none⟩),
  ("fw6m", ⟨"FW6MC",
    [⟨"ami", "FW6_825_KBU6LA09.bin"⟩, ⟨"coreboot", "protectli_all_fw6_vault_kbl_v1.0.14.rom"⟩],
    flash_command, none, none⟩),
  ("fw6d", ⟨"8250U",
    [⟨"ami", "FW6_all_YKBR6L12.bin"⟩, ⟨"coreboot", "protectli_all_fw6_vault_kbl_v1.0.14.rom"⟩],
    flash_command, some overrider_command, none⟩),
  ("fw6e", ⟨"8550U",
    [⟨"ami", "FW6_all_YKBR6L12.bin"⟩, ⟨"coreboot", "protectli_all_fw6_vault_kbl_v1.0.14.rom"⟩],
    flash_command, some overrider_command, none⟩),
  ("vp2410", ⟨"J4125",
    [⟨"ami", "VP2410_GLK4L260.bin"⟩, ⟨"coreboot", "protectli_vp2410_DF_1.0.9.rom"⟩],
    vpxxxx_flash_command, none, none⟩),
  ("vp2410r", ⟨"J4125",
    [⟨"ami", "VP2410_GML4AV30.bin"⟩, ⟨"coreboot", "protectli_vp2410_DF_v1.0.15.rom"⟩],
    vpxxxx_flash_command, none, none⟩),
  ("vp4630", ⟨"10110U",
    [⟨"ami", "vp4630_YW6L2314.bin"⟩, ⟨"coreboot", "protectli_vp4630_v1.0.17.rom"⟩],
    vpxxxx_flash_command, none, some vpxxxx_upgrade⟩),
  ("vp4650", ⟨"10210U",
    [⟨"ami", "vp4650_YW6L2514.bin"⟩],
    vpxxxx_flash_command, none, some vpxxxx_upgrade⟩)]

/-- Dictionary access `CONFIGURATIONS[model]` as a total lookup:
`some` the entry when the key is present, `none` otherwise (Python
raises `KeyError` on a missing key; the theorems below only apply the
accessor parts of the code at present keys). -/
def lookup (model : String) : Option Config :=
  (CONFIGURATIONS.find? (fun mc => mc.1 == model)).map (fun mc => mc.2)

/-- Python `str.format` restricted to the shape of the command templates:
every occurrence of the slot `\x7b0\x7d` in the template is replaced by
the argument (each template in the source has exactly one slot). -/
def formatChars (arg : List Char) : List Char → List Char
  | '\x7b' :: '0' :: '\x7d' :: rest => arg ++ formatChars arg rest
  | c :: rest => c :: formatChars arg rest
  | [] => []

/-- String-level wrapper for `formatChars`. -/
def pyFormat (template arg : String) : String := ⟨formatChars arg.data template.data⟩

/-- Python `str(x)` on an optional string: `None` prints as the string
`"None"` (as in `do_flash`, which formats the result of
`get_image_path` into the command without checking it). -/
def pyStrOpt : Option String → String
  | none => "None"
  | some s => s

/-- Loop body of `get_image_path` (`main.py` lines 55-57): scan the
bios list in order and return `images/<file>` for the first descriptor
whose vendor tag equals the request. -/
def find_image (bios : List Bios) (requested : String) : Option String :=
  match bios with
  | [] => none
  | b :: rest =>
    if b.vendor == requested then some ("images/" ++ b.file) else find_image rest requested

/-- `get_image_path` (`main.py` lines 44-57): look the model up in
`CONFIGURATIONS` and scan its bios list; falling off the loop returns
Python `None`, modelled as `none`. -/
def get_image_path (model requested : String) : Option String :=
  match lookup model with
  | none => none
  | some c => find_image c.bios requested

/-- External commands run by `do_flash` (`main.py` lines 60-81): none in
debug mode, otherwise exactly one `subprocess.run` of the hardcoded
`flash_command` template with the image path formatted in.  Note the
source formats the literal string on line 79 and never consults the
model's catalog `command` or `override` entries. -/
def do_flash_commands (debugmode : Bool) (model bios : String) : List String :=
  if debugmode then []
  else [pyFormat flash_command (pyStrOpt (get_image_path model bios))]

/-- Return code of `do_flash` given the external executor: 0 in debug
mode (no process run), otherwise the executor's exit status on the one
command built on line 79 of `main.py`. -/
def do_flash_rc (debugmode : Bool) (model bios : String) (executor : String → Int) : Int :=
  if debugmode then 0
  else executor (pyFormat flash_command (pyStrOpt (get_image_path model bios)))

/-- ASCII uppercasing of one character, the effect of Python
`str.upper` on the catalog's keys (all ASCII). -/
def upChar (c : Char) : Char :=
  if 'a' ≤ c ∧ c ≤ 'z' then Char.ofNat (c.toNat - 32) else c

/-- Python `str.upper` on an ASCII string. -/
def pyUpper (s : String) : String := ⟨s.data.map upChar⟩

/-- Lexicographic `≤` on strings as a Bool, the comparison used by
Python `list.sort` on strings (code-point order). -/
def charsLe : List Char → List Char → Bool
  | [], _ => true
  | _ :: _, [] => false
  | a :: as, b :: bs => if a < b then true else if b < a then false else charsLe as bs

/-- String-level wrapper for `charsLe`. -/
def strLe (s t : String) : Bool := charsLe s.data t.data

/-- Strict lexicographic order on character lists (code-point order),
used to state that a listing is sorted. -/
def charsLt : List Char → List Char → Bool
  | [], [] => false
  | [], _ :: _ => true
  | _ :: _, [] => false
  | a :: as, b :: bs => if a < b then true else if b < a then false else charsLt as bs

/-- Strict lexicographic order on strings as a Bool. -/
def strLt (s t : String) : Bool := charsLt s.data t.data

/-- Ordered insertion for the sort model. -/
def insertStr (s : String) : List String → List String
  | [] => [s]
  | t :: rest => if strLe s t then s :: t :: rest else t :: insertStr s rest

/-- Ascending lexicographic sort, the model of Python `list.sort` on a
list of strings. -/
def sortStr : List String → List String
  | [] => []
  | s :: rest => insertStr s (sortStr rest)

/-- `print_supported_products` (`main.py` lines 84-89): the lines
printed are the catalog keys mapped through `str.upper` and then
sorted ascending. -/
def print_supported_products_lines : List String :=
  sortStr (CONFIGURATIONS.map (fun mc => pyUpper mc.1))

/-- Value of one decimal digit character, else `none`. -/
def digitVal (c : Char) : Option Nat :=
  if '0' ≤ c ∧ c ≤ '9' then some (c.toNat - 48) else none

/-- Accumulate decimal digits; any non-digit character fails. -/
def digitsToNat (acc : Nat) : List Char → Option Nat
  | [] => some acc
  | c :: cs =>
    match digitVal c with
    | some d => digitsToNat (acc * 10 + d) cs
    | none => none

/-- Python `int(...)` on a plain numeric string: an optional sign
followed by at least one decimal digit; anything else raises
`ValueError`, modelled as `none`.  (Whitespace-padded and
underscore-grouped forms accepted by Python are not needed by any
theorem below.) -/
def pyInt (s : String) : Option Int :=
  match s.data with
  | [] => none
  | '-' :: cs => if cs = [] then none else (digitsToNat 0 cs).map (fun n => -(n : Int))
  | '+' :: cs => if cs = [] then none else (digitsToNat 0 cs).map (fun n => (n : Int))
  | cs => (digitsToNat 0 cs).map (fun n => (n : Int))

/-- Decidable description of an input token that the selection loop
rejects and re-prompts on: it parses as an integer (so `int(...)` does
not raise) but fails the bounds check of `main.py` line 110. -/
def outOfRange (len : Nat) (s : String) : Bool :=
  match pyInt s with
  | none => false
  | some n => if 0 < n ∧ n ≤ (len : Int) then false else true

/-- Bounds check and 1-based indexing of `main.py` lines 110-111:
`if (0 < user_input <= len(available_options)): return
available_options[user_input - 1]`. -/
def selectionStep (options : List Bios) (n : Int) : Option Bios :=
  if h : 0 < n ∧ n ≤ (options.length : Int) then
    some (options.get ⟨(n - 1).toNat, by omega⟩)
  else none

/-- Result of running the selection loop on a finite input script:
`crash` models an uncaught `ValueError` from `int(input())`, `pending`
models the loop blocking for more input, `selected v` models
returning vendor `v`. -/
inductive SelState
  | crash
  | pending
  | selected (vendor : String)
deriving DecidableEq

/-- The `while` loop of `get_user_selection` (`main.py` lines
103-111).  The loop variable `selection` stays `''`, which is never a
vendor tag, so the only exit is the `return` inside the bounds check;
an out-of-range integer reprints the menu and reads the next input. -/
def getUserSelectionLoop (options : List Bios) : List String → SelState
  | [] => SelState.pending
  | s :: rest =>
    match pyInt s with
    | none => SelState.crash
    | some n =>
      match selectionStep options n with
      | some b => SelState.selected b.vendor
      | none => getUserSelectionLoop options rest

/-- `get_user_selection` (`main.py` lines 92-111) over an input
script. -/
def get_user_selection (device : String) (inputs : List String) : SelState :=
  match lookup device with
  | none => SelState.crash
  | some c => getUserSelectionLoop c.bios inputs

/-- Modelled from the spec: `flashli/hardware.py` is not under `src/`.
Per spec section 4.3 the Hardware Identity Provider exposes the model
identifier, the boot mode string, and optionally the current firmware
vendor; this record is one read-once snapshot of those answers. -/
structure HardwareSnapshot where
  modelId : String
  bootMode : String
  currentVendor : Option String
deriving DecidableEq

/-- Modelled from the spec: `hardware.is_protectli_device` lives in
`flashli/hardware.py`, which is not under `src/`.  Per spec section
4.2 step Identify, the device is supported iff its model identifier is
a catalog key. -/
def is_protectli_device (snap : HardwareSnapshot) : Bool :=
  (lookup snap.modelId).isSome

/-- Terminal states of one run of `main` (`main.py` lines 119-154). -/
inductive Terminal
  | UnsupportedDevice (listing : List String)
  | WrongBootMode
  | SelectionCrash
  | SelectionPending
  | FlashSucceeded
  | FlashFailed (code : Int)
deriving DecidableEq

/-- The decision flow of `main` (`main.py` lines 119-154): the
supported-device check (line 128), then the EFI mode gate (line 136),
then the selection loop, then `do_flash` and the interpretation of its
return code (lines 147-154). -/
def mainRun (debugmode : Bool) (snap : HardwareSnapshot) (inputs : List String)
    (executor : String → Int) : Terminal :=
  if is_protectli_device snap = false then
    Terminal.UnsupportedDevice print_supported_products_lines
  else if snap.bootMode = "EFI" then Terminal.WrongBootMode
  else
    match get_user_selection snap.modelId inputs with
    | SelState.crash => Terminal.SelectionCrash
    | SelState.pending => Terminal.SelectionPending
    | SelState.selected v =>
      let rc := do_flash_rc debugmode snap.modelId v executor
      if rc = 0 then Terminal.FlashSucceeded else Terminal.FlashFailed rc

/-- External commands spawned during one run of `main`: empty unless
the run reaches `do_flash`, in which case they are the commands of
`do_flash_commands`. -/
def mainCommands (debugmode : Bool) (snap : HardwareSnapshot) (inputs : List String) :
    List String :=
  if is_protectli_device snap = false then []
  else if snap.bootMode = "EFI" then []
  else
    match get_user_selection snap.modelId inputs with
    | SelState.selected v => do_flash_commands debugmode snap.modelId v
    | _ => []

/-- Lines printed by `main` after `do_flash` returns (`main.py` lines
148-154), including the `show_debug_info` line on failure.  Neither
branch prints the return code itself. -/
def flash_result_output (returncode : Int) : List String :=
  if returncode = 0 then
    ["Flash completed and successful.", "Please restart your device."]
  else
    ["BIOS Flash failed, is this script running with root permissions?",
     "Please try again, but if problems persist, please let us know.",
     "TODO: Collect info and display instructions on how to submit a Github issue."]

/-- A constant executor (a mocked Flash Executor always returning the
given exit status). -/
def constExecutor (c : Int) : String → Int := fun _ => c

/-- Token-level shape of the `CONFIGURATIONS` dict literal: a
top-level entry for a key, or a comma separating entries. -/
inductive CatTok
  | entryTok (key : String)
  | commaTok
deriving DecidableEq

/-- The top-level token stream of the `CONFIGURATIONS` literal exactly
as written in `src/flashli/configurations.py`: each entry with the
separator that follows it.  The `vp4630` entry (ending line 257) is
not followed by a comma before `vp4650` (line 258). -/
def configurationsSourceToks : List CatTok := [
  CatTok.entryTok "fw2", CatTok.commaTok,
  CatTok.entryTok "fw2b", CatTok.commaTok,
  CatTok.entryTok "fw1", CatTok.commaTok,
  CatTok.entryTok "fw4a", CatTok.commaTok,
  CatTok.entryTok "fw4b", CatTok.commaTok,
  CatTok.entryTok "fw4c", CatTok.commaTok,
  CatTok.entryTok "fw6a", CatTok.commaTok,
  CatTok.entryTok "fw6ar", CatTok.commaTok,
  CatTok.entryTok "fw6b", CatTok.commaTok,
  CatTok.entryTok "fw6br", CatTok.commaTok,
  CatTok.entryTok "fw6br2", CatTok.commaTok,
  CatTok.entryTok "fw6c", CatTok.commaTok,
  CatTok.entryTok "fw6m", CatTok.commaTok,
  CatTok.entryTok "fw6d", CatTok.commaTok,
  CatTok.entryTok "fw6e", CatTok.commaTok,
  CatTok.entryTok "vp2410", CatTok.commaTok,
  CatTok.entryTok "vp2410r", CatTok.commaTok,
  CatTok.entryTok "vp4630",
  CatTok.entryTok "vp4650", CatTok.commaTok]

/-- Python's dict-literal grammar at the item level: entries must be
separated by commas, with an optional trailing comma. -/
def dictItemsOk : List CatTok → Bool
  | [] => true
  | [CatTok.entryTok _] => true
  | CatTok.entryTok _ :: CatTok.commaTok :: rest => dictItemsOk rest
  | _ => false

/-- Result of Python evaluating `import flashli.configurations`
(`main.py` line 12): a parse failure of the literal aborts the process
before `main` is ever entered. -/
inductive StartupResult
  | configError
  | running
deriving DecidableEq

/-- Module import at `main.py` line 12, before any other statement of
the program body runs. -/
def importConfigurations : StartupResult :=
  if dictItemsOk configurationsSourceToks then StartupResult.running
  else StartupResult.configError

/-- Hardware reads performed by the process: `main` only runs (and
with it `hardware.get_protectli_device`, `hardware.get_bios_mode`)
when the import at line 12 succeeded. -/
def startupHardwareReads : List String :=
  match importConfigurations with
  | StartupResult.configError => []
  | StartupResult.running => ["dmi_model_id", "bios_mode"]

end Flashli

namespace Flashli

/-- Helper: every catalog entry has a non-empty bios list with
pairwise-distinct vendor tags, and its key looks up to its value. -/
theorem catalog_invariant : ∀ mc ∈ CONFIGURATIONS,
    lookup mc.1 = some mc.2 ∧ mc.2.bios ≠ [] ∧ (mc.2.bios.map Bios.vendor).Nodup := by decide

/-- Helper: scanning a bios list for an absent vendor yields nothing. -/
theorem find_image_none (bios : List Bios) (v : String) (hv : ∀ b ∈ bios, b.vendor ≠ v) :
    find_image bios v = none := by
  induction bios with
  | nil => rfl
  | cons b rest ih =>
    have hb : b.vendor ≠ v := hv b (List.mem_cons_self b rest)
    simp only [find_image]
    rw [if_neg (by simpa using hb)]
    exact ih (fun x hx => hv x (List.mem_cons_of_mem b hx))

/-- Helper: with pairwise-distinct vendor tags, scanning for a member
descriptor's vendor finds that descriptor's file. -/
theorem find_image_mem (bios : List Bios) (b : Bios) (hb : b ∈ bios)
    (hnd : (bios.map Bios.vendor).Nodup) :
    find_image bios b.vendor = some ("images/" ++ b.file) := by
  induction bios with
  | nil => cases hb
  | cons a rest ih =>
    rcases List.mem_cons.mp hb with h | h
    · subst h
      simp [find_image]
    · have hne : a.vendor ≠ b.vendor := by
        intro he
        have hmem : b.vendor ∈ rest.map Bios.vendor := List.mem_map_of_mem Bios.vendor h
        rw [← he] at hmem
        exact (List.nodup_cons.mp (by simpa using hnd)).1 hmem
      simp only [find_image]
      rw [if_neg (by simpa using hne)]
      exact ih h (List.nodup_cons.mp (by simpa using hnd)).2

/-- Helper: a successful `find?` by key returns a list member with
that key. -/
theorem find?_key_mem {l : List (String × Config)} {k : String} {mc : String × Config}
    (h : l.find? (fun x => x.1 == k) = some mc) : mc ∈ l ∧ mc.1 = k := by
  induction l with
  | nil => simp [List.find?] at h
  | cons a rest ih =>
    rw [List.find?_cons] at h
    cases hp : (a.1 == k) with
    | true =>
      rw [hp] at h
      simp only [cond_true, Option.some.injEq] at h
      subst h
      exact ⟨List.mem_cons_self a rest, by simpa using hp⟩
    | false =>
      rw [hp] at h
      simp only [cond_false] at h
      rcases ih h with ⟨hm, hk1⟩
      exact ⟨List.mem_cons_of_mem a hm, hk1⟩

/-- Helper: a successful lookup comes from a catalog entry. -/
theorem lookup_mem (k : String) (c : Config) (hk : lookup k = some c) :
    (k, c) ∈ CONFIGURATIONS := by
  unfold lookup at hk
  rcases Option.map_eq_some'.mp hk with ⟨mc, hfind, hc⟩
  rcases find?_key_mem hfind with ⟨hmem, hkey⟩
  have hmc : mc = (k, c) := by
    cases mc
    simp at hkey hc
    simp [hkey, hc]
  rwa [hmc] at hmem

/-- Helper: the bios list of any looked-up entry has pairwise-distinct
vendor tags. -/
theorem lookup_bios_nodup (k : String) (c : Config) (hk : lookup k = some c) :
    (c.bios.map Bios.vendor).Nodup :=
  (catalog_invariant (k, c) (lookup_mem k c hk)).2.2

/-- Helper: one out-of-range numeric input is skipped by the selection
loop. -/
theorem loop_skip (options : List Bios) (s : String)
    (h : outOfRange options.length s = true) (rest : List String) :
    getUserSelectionLoop options (s :: rest) = getUserSelectionLoop options rest := by
  cases hpi : pyInt s with
  | none => exact absurd h (by simp [outOfRange, hpi])
  | some n =>
    have hrange : ¬(0 < n ∧ n ≤ (options.length : Int)) := by
      by_contra hc
      simp [outOfRange, hpi, hc] at h
    have hstep : selectionStep options n = none := by
      unfold selectionStep
      rw [dif_neg hrange]
    simp [getUserSelectionLoop, hpi, hstep]

/-- Helper: any run of out-of-range numeric inputs is skipped. -/
theorem loop_append_skip (options : List Bios) (bad good : List String)
    (hbad : ∀ s ∈ bad, outOfRange options.length s = true) :
    getUserSelectionLoop options (bad ++ good) = getUserSelectionLoop options good := by
  induction bad with
  | nil => rfl
  | cons s rest ih =>
    rw [List.cons_append, loop_skip options s (hbad s (List.mem_cons_self s rest)) (rest ++ good)]
    exact ih (fun x hx => hbad x (List.mem_cons_of_mem s hx))

/-- Helper: at most one external command is spawned per run. -/
theorem mainCommands_length (dm : Bool) (snap : HardwareSnapshot) (inputs : List String) :
    (mainCommands dm snap inputs).length ≤ 1 := by
  unfold mainCommands do_flash_commands
  split
  · simp
  · split
    · simp
    · split
      · split <;> simp
      · simp

end Flashli

namespace Flashli

/-- C1. -/
theorem c1_image_path_and_fixed_command (k : String) (c : Config) (b : Bios)
    (hk : lookup k = some c) (hb : b ∈ c.bios) :
    get_image_path k b.vendor = some ("images/" ++ b.file) ∧
    do_flash_commands false k b.vendor = [pyFormat flash_command ("images/" ++ b.file)] := by
  have hfi := find_image_mem c.bios b hb (lookup_bios_nodup k c hk)
  constructor
  · simp [get_image_path, hk, hfi]
  · simp [do_flash_commands, get_image_path, hk, hfi, pyStrOpt]

/-- C1 counterexample. -/
theorem c1_counterexample :
    (lookup "vp4630").map Config.command = some vpxxxx_flash_command ∧
    do_flash_commands false "vp4630" "coreboot" =
      ["vendor/flashrom -p internal -w images/protectli_vp4630_v1.0.17.rom --ifd -i bios"] ∧
    pyFormat vpxxxx_flash_command "images/protectli_vp4630_v1.0.17.rom" =
      "vendor/flashrom -p internal -w images/protectli_vp4630_v1.0.17.rom" ∧
    ("vendor/flashrom -p internal -w images/protectli_vp4630_v1.0.17.rom --ifd -i bios" : String) ≠
      "vendor/flashrom -p internal -w images/protectli_vp4630_v1.0.17.rom" := by decide

/-- C1 witness. -/
theorem c1_witness :
    get_image_path "fw2" "ami" = some "images/FW2_BTL4A012.bin" ∧
    do_flash_commands false "fw2" "ami" = [pyFormat flash_command "images/FW2_BTL4A012.bin"] := by
  have h := c1_image_path_and_fixed_command "fw2"
    ⟨"J1800", [⟨"ami", "FW2_BTL4A012.bin"⟩], flash_command, none, none⟩
    ⟨"ami", "FW2_BTL4A012.bin"⟩ (by decide) (by decide)
  exact ⟨h.1.trans (by decide), h.2.trans (by decide)⟩

/-- C2 amended. -/
theorem c2_default_command_regardless_of_vendor (cur : Option String) :
    mainCommands false ⟨"fw6d", "Legacy", cur⟩ ["2"] =
      [pyFormat flash_command "images/protectli_all_fw6_vault_kbl_v1.0.14.rom"] ∧
    pyFormat flash_command "images/protectli_all_fw6_vault_kbl_v1.0.14.rom" ≠
      pyFormat overrider_command "images/protectli_all_fw6_vault_kbl_v1.0.14.rom" :=
  ⟨rfl, by decide⟩

/-- C2 counterexample. -/
theorem c2_counterexample :
    (lookup "fw6d").map Config.override = some (some overrider_command) ∧
    do_flash_commands false "fw6d" "coreboot" =
      [pyFormat flash_command "images/protectli_all_fw6_vault_kbl_v1.0.14.rom"] ∧
    pyFormat flash_command "images/protectli_all_fw6_vault_kbl_v1.0.14.rom" ≠
      pyFormat overrider_command "images/protectli_all_fw6_vault_kbl_v1.0.14.rom" := by decide

/-- C3 amended. -/
theorem c3_mode_gate (dm : Bool) (snap : HardwareSnapshot) (inputs : List String)
    (ex : String → Int) (hmode : snap.bootMode = "EFI") :
    mainRun dm snap inputs ex =
      (if (lookup snap.modelId).isSome then Terminal.WrongBootMode
       else Terminal.UnsupportedDevice print_supported_products_lines) ∧
    mainCommands dm snap inputs = [] := by
  unfold mainRun mainCommands is_protectli_device
  cases h : (lookup snap.modelId).isSome <;> simp [h, hmode]

/-- C3 counterexample. -/
theorem c3_counterexample :
    mainRun false ⟨"imx6", "EFI", none⟩ [] (constExecutor 0) =
      Terminal.UnsupportedDevice print_supported_products_lines ∧
    mainRun false ⟨"imx6", "EFI", none⟩ [] (constExecutor 0) ≠ Terminal.WrongBootMode := by decide

/-- C3 witness. -/
theorem c3_witness :
    mainRun false ⟨"fw2b", "EFI", none⟩ [] (constExecutor 0) = Terminal.WrongBootMode := by
  have h := c3_mode_gate false ⟨"fw2b", "EFI", none⟩ [] (constExecutor 0) rfl
  exact h.1.trans (by decide)

/-- C4 amended. -/
theorem c4_exit_status_outcomes (snap : HardwareSnapshot) (inputs : List String) (v : String)
    (c : Int) (hdev : (lookup snap.modelId).isSome = true) (hmode : ¬snap.bootMode = "EFI")
    (hsel : get_user_selection snap.modelId inputs = SelState.selected v) (hc : ¬c = 0) :
    mainRun false snap inputs (constExecutor 0) = Terminal.FlashSucceeded ∧
    mainRun false snap inputs (constExecutor c) = Terminal.FlashFailed c ∧
    flash_result_output c = flash_result_output 1 ∧
    (mainCommands false snap inputs).length ≤ 1 := by
  refine ⟨?_, ?_, ?_, mainCommands_length false snap inputs⟩
  · simp [mainRun, is_protectli_device, hdev, hmode, hsel, do_flash_rc, constExecutor]
  · simp [mainRun, is_protectli_device, hdev, hmode, hsel, do_flash_rc, constExecutor, hc]
  · simp [flash_result_output, hc]

/-- C4 counterexample. -/
theorem c4_counterexample :
    flash_result_output 2 = flash_result_output 3 ∧
    (∀ l ∈ flash_result_output 2, ∀ ch ∈ l.data, ch.isDigit = false) := by decide

/-- C4 witness. -/
theorem c4_witness :
    mainRun false ⟨"fw2b", "Legacy", none⟩ ["1"] (constExecutor 0) = Terminal.FlashSucceeded ∧
    mainRun false ⟨"fw2b", "Legacy", none⟩ ["1"] (constExecutor 2) = Terminal.FlashFailed 2 := by
  have h := c4_exit_status_outcomes ⟨"fw2b", "Legacy", none⟩ ["1"] "ami" 2
    (by decide) (by decide) (by decide) (by decide)
  exact ⟨h.1, h.2.1⟩

/-- C5. -/
theorem c5_unsupported_listing (dm : Bool) (snap : HardwareSnapshot) (inputs : List String)
    (ex : String → Int) (h : lookup snap.modelId = none) :
    mainRun dm snap inputs ex = Terminal.UnsupportedDevice print_supported_products_lines ∧
    print_supported_products_lines =
      ["FW1", "FW2", "FW2B", "FW4A", "FW4B", "FW4C", "FW6A", "FW6AR", "FW6B", "FW6BR",
       "FW6BR2", "FW6C", "FW6D", "FW6E", "FW6M", "VP2410", "VP2410R", "VP4630", "VP4650"] ∧
    print_supported_products_lines.Perm (CONFIGURATIONS.map (fun mc => pyUpper mc.1)) ∧
    List.Pairwise (fun a b => strLt a b = true) print_supported_products_lines := by
  refine ⟨?_, by decide, by decide, by decide⟩
  simp [mainRun, is_protectli_device, h]

/-- C5 witness. -/
theorem c5_witness :
    lookup "imx8" = none ∧
    mainRun false ⟨"imx8", "Legacy", none⟩ [] (constExecutor 0) =
      Terminal.UnsupportedDevice print_supported_products_lines :=
  ⟨by decide,
   (c5_unsupported_listing false ⟨"imx8", "Legacy", none⟩ [] (constExecutor 0) (by decide)).1⟩

/-- C6 amended. -/
theorem c6_numeric_reprompt (device : String) (c : Config) (bad good : List String)
    (hd : lookup device = some c)
    (hbad : ∀ s ∈ bad, outOfRange c.bios.length s = true) :
    get_user_selection device (bad ++ good) = get_user_selection device good ∧
    ∀ (dm : Bool) (mode : String) (cur : Option String) (ex : String → Int),
      mainRun dm ⟨device, mode, cur⟩ (bad ++ good) ex = mainRun dm ⟨device, mode, cur⟩ good ex := by
  have hsel : get_user_selection device (bad ++ good) = get_user_selection device good := by
    unfold get_user_selection
    rw [hd]
    exact loop_append_skip c.bios bad good hbad
  refine ⟨hsel, fun dm mode cur ex => ?_⟩
  simp only [mainRun, hsel]

/-- C6 counterexample. -/
theorem c6_counterexample :
    (lookup "fw2b").map (fun c => c.bios.map Bios.vendor) = some ["ami", "coreboot"] ∧
    get_user_selection "fw2b" ["ami"] = SelState.crash ∧
    get_user_selection "fw2b" ["xyz", "1"] = SelState.crash := by decide

/-- C6 witness. -/
theorem c6_witness :
    get_user_selection "fw2b" ["5", "0", "2"] = get_user_selection "fw2b" ["2"] ∧
    get_user_selection "fw2b" ["2"] = SelState.selected "coreboot" := by
  have h := c6_numeric_reprompt "fw2b"
    ⟨"J3060", [⟨"ami", "FW2B_BSW4L011.bin"⟩, ⟨"coreboot", "protectli_fw2b_v4.9.0.2.rom"⟩],
     flash_command, none, none⟩ ["5", "0"] ["2"] (by decide) (by decide)
  exact ⟨h.1, by decide⟩

/-- C7. -/
theorem c7_lookup_invariant (k : String) (c : Config) (hk : lookup k = some c) :
    c.bios ≠ [] ∧ (c.bios.map Bios.vendor).Nodup := by
  have h := catalog_invariant (k, c) (lookup_mem k c hk)
  exact ⟨h.2.1, h.2.2⟩

/-- C7 witness. -/
theorem c7_witness :
    (⟨"8250U", [⟨"ami", "FW6_all_YKBR6L12.bin"⟩,
       ⟨"coreboot", "protectli_all_fw6_vault_kbl_v1.0.14.rom"⟩],
      flash_command, some overrider_command, none⟩ : Config).bios ≠ [] ∧
    ((⟨"8250U", [⟨"ami", "FW6_all_YKBR6L12.bin"⟩,
       ⟨"coreboot", "protectli_all_fw6_vault_kbl_v1.0.14.rom"⟩],
      flash_command, some overrider_command, none⟩ : Config).bios.map Bios.vendor).Nodup :=
  c7_lookup_invariant "fw6d"
    ⟨"8250U", [⟨"ami", "FW6_all_YKBR6L12.bin"⟩,
      ⟨"coreboot", "protectli_all_fw6_vault_kbl_v1.0.14.rom"⟩],
     flash_command, some overrider_command, none⟩ (by decide)

/-- C8. -/
theorem c8_startup_config_error :
    dictItemsOk configurationsSourceToks = false ∧
    importConfigurations = StartupResult.configError ∧
    startupHardwareReads = [] := by decide

/-- C9. -/
theorem c9_numeric_selection (device : String) (c : Config) (s : String) (n : Int)
    (rest : List String) (hd : lookup device = some c) (hn : pyInt s = some n) :
    (∀ h1 : 0 < n, ∀ h2 : n ≤ (c.bios.length : Int),
      get_user_selection device (s :: rest) =
        SelState.selected (c.bios.get ⟨(n - 1).toNat, by omega⟩).vendor) ∧
    (¬(0 < n ∧ n ≤ (c.bios.length : Int)) →
      get_user_selection device (s :: rest) = get_user_selection device rest) := by
  constructor
  · intro h1 h2
    have hstep : selectionStep c.bios n = some (c.bios.get ⟨(n - 1).toNat, by omega⟩) := by
      unfold selectionStep
      rw [dif_pos ⟨h1, h2⟩]
    simp [get_user_selection, hd, getUserSelectionLoop, hn, hstep]
  · intro h
    have hstep : selectionStep c.bios n = none := by
      unfold selectionStep
      rw [dif_neg h]
    simp [get_user_selection, hd, getUserSelectionLoop, hn, hstep]

/-- C9 witness. -/
theorem c9_witness :
    pyInt "2" = some 2 ∧ get_user_selection "fw2b" ["2"] = SelState.selected "coreboot" := by
  have h := (c9_numeric_selection "fw2b"
    ⟨"J3060", [⟨"ami", "FW2B_BSW4L011.bin"⟩, ⟨"coreboot", "protectli_fw2b_v4.9.0.2.rom"⟩],
     flash_command, none, none⟩ "2" 2 [] (by decide) (by decide)).1 (by decide) (by decide)
  exact ⟨by decide, h.trans (by decide)⟩

/-- C10. -/
theorem c10_no_match_no_path (k : String) (c : Config) (v : String)
    (hk : lookup k = some c) (hv : ∀ b ∈ c.bios, b.vendor ≠ v) :
    get_image_path k v = none := by
  simp [get_image_path, hk, find_image_none c.bios v hv]

/-- C10 witness. -/
theorem c10_witness :
    get_image_path "fw2" "coreboot" = none :=
  c10_no_match_no_path "fw2" ⟨"J1800", [⟨"ami", "FW2_BTL4A012.bin"⟩], flash_command, none, none⟩
    "coreboot" (by decide) (by decide)

end Flashli
